import Mathlib

/-!
Verification of the vapi-queue-system repository's queue orchestration and
call-scheduling logic, as a shallow embedding in Lean 4.

Conventions used throughout:
* JavaScript numbers are embedded as `ℚ` (priorities, durations, costs) or
  `ℤ` (millisecond timestamps and delays); `x || d` on numbers is `jsOrQ` /
  `jsOrZ` (JS treats `0`, `undefined` as falsy) and on strings is `jsOrStr`.
* Optional / possibly-`undefined` fields are `Option`.
* Clock values: `nowDay` is the current day-of-week index into
  `daysToCheck` and `nowMin` the minutes elapsed since local midnight.
* Times of day stored as `"HH:MM"` strings in the source (parsed there with
  `parseInt` on `split(':')`) are carried directly as minutes since
  midnight in the `Slot` fields.
* External collaborators (Mongo lookups, the VAPI busy probe, the external
  call, the store query feeding reports) are passed to each embedded
  function as explicit arguments holding the value the collaborator
  returned during the run under consideration.
-/

namespace VapiQueue

/-- Models the JavaScript `x || d` idiom on an optional numeric field:
`undefined` and `0` are falsy and yield the default. -/
def jsOrQ (x : Option ℚ) (d : ℚ) : ℚ :=
  match x with
  | none => d
  | some v => if v = 0 then d else v

/-- Models the JavaScript `x || d` idiom on an optional integer (millisecond)
field: `undefined` and `0` are falsy and yield the default. -/
def jsOrZ (x : Option ℤ) (d : ℤ) : ℤ :=
  match x with
  | none => d
  | some v => if v = 0 then d else v

/-- Models the JavaScript `s || d` idiom on a string: the empty string is
falsy and yields the default. -/
def jsOrStr (s d : String) : String :=
  if s = "" then d else s

/-! ## src/queues/config.ts -/

/-- Backoff settings of the default job options (config.ts). -/
structure BackoffOptions where
  type : String
  delay : ℕ
  deriving DecidableEq, Repr

/-- Default job options attached to every queue (config.ts,
`DEFAULT_JOB_OPTIONS`). -/
structure JobOptionsCfg where
  removeOnComplete : ℕ
  removeOnFail : ℕ
  attempts : ℕ
  backoff : BackoffOptions
  deriving DecidableEq, Repr

/-- config.ts `DEFAULT_JOB_OPTIONS`: 3 attempts, exponential backoff with a
5000 ms base delay. -/
def DEFAULT_JOB_OPTIONS : JobOptionsCfg :=
  { removeOnComplete := 100
    removeOnFail := 50
    attempts := 3
    backoff := { type := "exponential", delay := 5000 } }

/-! ## Data model (config.ts `JobData`, User weekly schedule) -/

/-- A contact to be dialled. -/
structure Contact where
  name : String
  number : String
  deriving DecidableEq, Repr

/-- One weekly-schedule slot: the assistant bound to it and its start/end
time of day in minutes since midnight (source stores `"HH:MM"` strings). -/
structure Slot where
  assistantId : String
  callTimeStart : ℕ
  callTimeEnd : ℕ
  deriving DecidableEq, Repr

/-- A day's schedule: named slots in object-insertion order, as iterated by
`Object.entries` in the source. -/
abbrev DaySchedule := List (String × Slot)

/-- Per-tenant weekly schedule: one optional day schedule per weekday. -/
structure WeeklySchedule where
  monday : Option DaySchedule
  tuesday : Option DaySchedule
  wednesday : Option DaySchedule
  thursday : Option DaySchedule
  friday : Option DaySchedule
  saturday : Option DaySchedule
  sunday : Option DaySchedule

/-- The order of `daysToCheck` in CallProcessor.findNextAvailableSlot. -/
def daysToCheck : List String :=
  ["monday", "tuesday", "wednesday", "thursday", "friday", "saturday", "sunday"]

/-- Index the weekly schedule by position in `daysToCheck`. -/
def WeeklySchedule.day (s : WeeklySchedule) : ℕ → Option DaySchedule
  | 0 => s.monday
  | 1 => s.tuesday
  | 2 => s.wednesday
  | 3 => s.thursday
  | 4 => s.friday
  | 5 => s.saturday
  | 6 => s.sunday
  | _ => none

/-- The user document fields the call processor reads. -/
structure UserDoc where
  weeklySchedule : WeeklySchedule

/-- config.ts `JobData`: the payload of one call job. -/
structure JobData where
  userId : String
  assistantId : String
  contact : Contact
  priority : Option ℚ
  delay : Option ℤ
  deriving DecidableEq, Repr

/-! ## src/queues/QueueManager.ts (enqueue paths) -/

/-- Options passed alongside `addCallJob` / `addBulk` entries. -/
structure AddOpts where
  priority : Option ℚ := none
  delay : Option ℤ := none
  deriving DecidableEq, Repr

/-- One entry as it lands on the call queue: payload plus the effective
priority and delay after option merging. -/
structure Enqueue where
  data : JobData
  priority : ℚ
  delay : ℤ
  deriving DecidableEq, Repr

/-- QueueManager.addCallJob: `priority: data.priority || 1`,
`delay: data.delay || 0`, then `...options` overrides both when present. -/
def addCallJob (data : JobData) (options : AddOpts) : Enqueue :=
  { data := data
    priority := options.priority.getD (jsOrQ data.priority 1)
    delay := options.delay.getD (jsOrZ data.delay 0) }

/-- QueueManager.addBulkCallJobs: per entry the options are
`priority: job.data.priority || 1, delay: job.data.delay || 0, ...job.opts`,
identical merging to `addCallJob`. -/
def addBulkCallJobs (jobs : List (JobData × AddOpts)) : List Enqueue :=
  jobs.map fun job => addCallJob job.1 job.2

/-! ## src/routes.ts POST /queue-calls -/

/-- List map with an explicit running index, mirroring
`array.map((x, index) => ...)`. -/
def mapWithIndex (f : ℕ → α → β) : ℕ → List α → List β
  | _, [] => []
  | i, a :: as => f i a :: mapWithIndex f (i + 1) as

/-- Models `String.prototype.trim`: drop leading and trailing whitespace
(written structurally so that it evaluates inside the kernel). -/
def jsTrim (s : String) : String :=
  ⟨((s.data.dropWhile Char.isWhitespace).reverse.dropWhile Char.isWhitespace).reverse⟩

/-- routes.ts contact validation: keep contacts whose trimmed name and
number are non-empty. -/
def validContacts (contacts : List Contact) : List Contact :=
  contacts.filter fun c => jsTrim c.name ≠ "" && jsTrim c.number ≠ ""

/-- routes.ts `/queue-calls` job preparation: the i-th valid contact gets
data priority `priority + index * 0.01` and option delay
`delay + index * 1000`. -/
def queueCallsJobs (userId assistantId : String) (contacts : List Contact)
    (priority : ℚ) (delay : ℤ) : List (JobData × AddOpts) :=
  mapWithIndex
    (fun index c =>
      ({ userId := userId
         assistantId := assistantId
         contact := { name := jsTrim c.name, number := jsTrim c.number }
         priority := some (priority + (index : ℚ) * (1 / 100))
         delay := none },
       { priority := none, delay := some (delay + (index : ℤ) * 1000) }))
    0 (validContacts contacts)

/-- The queue entries produced by one `/queue-calls` request. -/
def queueCallsEnqueues (userId assistantId : String) (contacts : List Contact)
    (priority : ℚ) (delay : ℤ) : List Enqueue :=
  addBulkCallJobs (queueCallsJobs userId assistantId contacts priority delay)

/-! ## src/queues/processors/CallProcessor.ts -/

/-- A JavaScript `Error` as observed by the processor: its message and an
optional `code` property. -/
structure JsError where
  message : String
  code : Option String
  deriving DecidableEq, Repr

/-- CallProcessor.isRetryableError's signal list. -/
def retryableErrors : List String :=
  ["VAPI_BUSY", "NETWORK_ERROR", "TEMPORARY_FAILURE", "RATE_LIMITED"]

/-- Models `String.prototype.includes`: substring containment. -/
def messageIncludes (msg sub : String) : Bool :=
  decide (List.IsInfix sub.data msg.data)

/-- CallProcessor.isRetryableError: the error message contains one of the
retryable signals, or its `code` equals one of them. -/
def isRetryableError (e : JsError) : Bool :=
  retryableErrors.any fun r => messageIncludes e.message r || e.code == some r

/-- Modelled from the spec: `isWithinCallHours` lives in `src/utils`, which
is not part of the provided sources; the spec (section 8) fixes the window
as half-open, with `now == start` inside and `now == end` outside. -/
def isWithinCallHours (startMin endMin nowMin : ℕ) : Bool :=
  startMin ≤ nowMin && nowMin < endMin

/-- CallProcessor.getCurrentSlotForAssistant: today's day schedule, first
entry whose assistantId matches (Object.entries order), else none. -/
def getCurrentSlotForAssistant (u : UserDoc) (assistantId : String)
    (currentDay : ℕ) : Option Slot :=
  match u.weeklySchedule.day currentDay with
  | none => none
  | some ds => (ds.find? fun p => p.2.assistantId == assistantId).map Prod.snd

/-- First matching (slotName, slot) entry of day `d`, the per-day body of
the lookup loops in CallProcessor. -/
def matchDaySlot (u : UserDoc) (assistantId : String) (d : ℕ) :
    Option (String × Slot) :=
  match u.weeklySchedule.day d with
  | none => none
  | some ds => ds.find? fun p => p.2.assistantId == assistantId

/-- The value returned by CallProcessor.findNextAvailableSlot:
`{day, slot, ...slotData}`; `dayOffset` additionally records the loop index
`i` (the day checked is `(currentDayIndex + i) % 7`). -/
structure NextSlot where
  dayOffset : ℕ
  day : String
  slotName : String
  slotData : Slot
  deriving DecidableEq, Repr

/-- The `for (let i = 1; i <= 7; i++)` loop of findNextAvailableSlot,
written with explicit remaining fuel. -/
def findNextAux (u : UserDoc) (assistantId : String) (c : ℕ) :
    ℕ → ℕ → Option NextSlot
  | 0, _ => none
  | fuel + 1, i =>
    match matchDaySlot u assistantId ((c + i) % 7) with
    | some (nm, sl) => some ⟨i, daysToCheck.getD ((c + i) % 7) "", nm, sl⟩
    | none => findNextAux u assistantId c fuel (i + 1)

/-- CallProcessor.findNextAvailableSlot: scan days `(c+1)%7 .. (c+7)%7` in
order, return the first matching slot entry found, else none. -/
def findNextAvailableSlot (u : UserDoc) (assistantId : String) (c : ℕ) :
    Option NextSlot :=
  findNextAux u assistantId c 7 1

/-- CallProcessor.calculateDelayToNextSlot: milliseconds from now until
tomorrow at the slot's start time (always tomorrow, whatever day the slot
was found on), floored at zero. -/
def calculateDelayToNextSlot (nextSlot : NextSlot) (nowMin : ℕ) : ℤ :=
  max 0 (((1440 : ℤ) - (nowMin : ℤ) + (nextSlot.slotData.callTimeStart : ℤ)) * 60000)

/-- One operation on the CallQueueDone store, in execution order. -/
inductive RecordOp where
  | create (status : String)
  | update (status : String) (reason : Option String) (completedAt : Bool)
  deriving DecidableEq, Repr

/-- Whether a record operation is a creation. -/
def RecordOp.isCreate : RecordOp → Bool
  | .create _ => true
  | .update _ _ _ => false

/-- The status a record operation writes. -/
def RecordOp.statusSet : RecordOp → String
  | .create s => s
  | .update s _ _ => s

/-- The `status` field of the object CallProcessor.process returns. -/
inductive ProcStatus where
  | completed
  | delayed
  | rescheduled
  deriving DecidableEq, Repr

instance [DecidableEq ε] [DecidableEq α] : DecidableEq (Except ε α) := fun a b =>
  match a, b with
  | .ok x, .ok y =>
    if h : x = y then .isTrue (by rw [h]) else .isFalse (fun hc => h (Except.ok.inj hc))
  | .ok _, .error _ => .isFalse Except.noConfusion
  | .error _, .ok _ => .isFalse Except.noConfusion
  | .error x, .error y =>
    if h : x = y then .isTrue (by rw [h]) else .isFalse (fun hc => h (Except.error.inj hc))

/-- Observable outcome of one CallProcessor.process run: store operations
(in order), queue re-enqueues, and the returned value or thrown error. -/
structure ProcResult where
  records : List RecordOp
  enqueues : List Enqueue
  outcome : Except JsError ProcStatus
  deriving DecidableEq, Repr

/-- The source condition `!currentSlot || !isWithinCallHours(...)`. -/
def outsideCallWindow (currentSlot : Option Slot) (nowMin : ℕ) : Bool :=
  match currentSlot with
  | none => true
  | some sl => !isWithinCallHours sl.callTimeStart sl.callTimeEnd nowMin

/-- CallProcessor.rescheduleForNextSlot: re-enqueue the same payload with
delay to the next slot and `priority: job.opts.priority || 1`; when no slot
exists only a warning is logged and nothing is enqueued. -/
def rescheduleForNextSlot (u : UserDoc) (assistantId : String)
    (nowDay nowMin : ℕ) (optsPriority : Option ℚ) (data : JobData) :
    List Enqueue :=
  match findNextAvailableSlot u assistantId nowDay with
  | some nextSlot =>
    [addCallJob data
      { delay := some (calculateDelayToNextSlot nextSlot nowMin)
        priority := some (jsOrQ optsPriority 1) }]
  | none => []

/-- CallProcessor.process before the outer catch block. Arguments `userOpt`
(the User.findById result), `nowDay`/`nowMin` (the clock), `vapiBusy`
(isVapiBusy) and `callResult` (makeCall) carry what the external
collaborators returned during this run; `optsPriority` is `job.opts.priority`. -/
def processInner (userOpt : Option UserDoc) (nowDay nowMin : ℕ)
    (vapiBusy : Bool) (callResult : Except JsError Unit)
    (optsPriority : Option ℚ) (data : JobData) : ProcResult :=
  match userOpt with
  | none => ⟨[], [], .error ⟨"User not found: " ++ data.userId, none⟩⟩
  | some user =>
    if outsideCallWindow (getCurrentSlotForAssistant user data.assistantId nowDay) nowMin then
      ⟨[], rescheduleForNextSlot user data.assistantId nowDay nowMin optsPriority data,
        .ok .rescheduled⟩
    else if vapiBusy then
      ⟨[], [addCallJob data { delay := some 15000 }], .ok .delayed⟩
    else
      match callResult with
      | .ok _ =>
        ⟨[.create "pending_initiation", .update "initiated" none true], [], .ok .completed⟩
      | .error e =>
        ⟨[.create "pending_initiation",
          .update "failed" (some (jsOrStr e.message "Unknown error")) true],
          [], .error e⟩

/-- CallProcessor.process including the outer catch: a retryable error is
rethrown unchanged, anything else is wrapped as a new
"Permanent failure: ..." error. -/
def process (userOpt : Option UserDoc) (nowDay nowMin : ℕ) (vapiBusy : Bool)
    (callResult : Except JsError Unit) (optsPriority : Option ℚ)
    (data : JobData) : ProcResult :=
  let inner := processInner userOpt nowDay nowMin vapiBusy callResult optsPriority data
  match inner.outcome with
  | .ok _ => inner
  | .error e =>
    { inner with
      outcome := .error (if isRetryableError e then e
        else ⟨"Permanent failure: " ++ e.message, none⟩) }

/-! ## src/utils/reportGenerator.ts -/

/-- The `analysis` sub-object of a call-history record. -/
structure AnalysisData where
  successEvaluation : Option Bool
  deriving DecidableEq, Repr

/-- The fields of `CallReportData` that the summary statistics read; the
remaining fields (transcript, customer, assistant name, ...) are pure
formatting pass-through and are omitted. -/
structure CallReportData where
  analysis : Option AnalysisData
  durationSeconds : Option ℚ
  endedReason : Option String
  cost : Option ℚ
  deriving DecidableEq, Repr

/-- Models `String.prototype.toLowerCase` (written structurally so that it
evaluates inside the kernel). -/
def jsToLower (s : String) : String :=
  ⟨s.data.map Char.toLower⟩

/-- The successful-call filter used throughout the repository:
`call.analysis?.successEvaluation === true && (call.durationSeconds || 0) > 10
&& call.endedReason?.toLowerCase() !== "voicemail"` (an absent endedReason
passes the third conjunct, since `undefined !== "voicemail"`). -/
def isSuccessfulCall (c : CallReportData) : Bool :=
  (match c.analysis with
   | none => false
   | some a => a.successEvaluation == some true)
  && jsOrQ c.durationSeconds 0 > 10
  && (match c.endedReason with
      | none => true
      | some r => jsToLower r != "voicemail")

/-- Models `Number(x.toFixed(2))` for the non-negative rationals arising in
the statistics: round to two decimal places, halves away from zero. -/
def toFixed2 (q : ℚ) : ℚ :=
  (⌊q * 100 + 1 / 2⌋ : ℚ) / 100

/-- The numeric fields of the object generateSummaryStats returns (the
formatted duration/cost strings and breakdown maps are formatting). -/
structure SummaryStats where
  totalCalls : ℕ
  successfulCalls : ℕ
  successRate : ℚ
  totalDuration : ℚ
  totalCost : ℚ
  deriving DecidableEq, Repr

/-- reportGenerator.generateSummaryStats: counts, sums, and
`Number(((successfulCalls / totalCalls) * 100).toFixed(2))` (0 when the
list is empty). -/
def generateSummaryStats (calls : List CallReportData) : SummaryStats :=
  let totalCalls := calls.length
  let successfulCalls := (calls.filter isSuccessfulCall).length
  let totalDuration := (calls.map fun c => jsOrQ c.durationSeconds 0).sum
  let totalCost := (calls.map fun c => jsOrQ c.cost 0).sum
  let successRate : ℚ :=
    if 0 < totalCalls then ((successfulCalls : ℚ) / (totalCalls : ℚ)) * 100 else 0
  { totalCalls := totalCalls
    successfulCalls := successfulCalls
    successRate := toFixed2 successRate
    totalDuration := totalDuration
    totalCost := totalCost }

/-! ## src/queues/processors/SchedulerProcessor.ts and the daily script -/

/-- Per-queue counts as returned by QueueManager.getQueueStats. -/
structure QueueCounts where
  waiting : ℕ
  active : ℕ
  completed : ℕ
  failed : ℕ
  delayed : ℕ
  deriving DecidableEq, Repr

/-- The three per-queue count blocks of getQueueStats. -/
structure QueueStats where
  callQueue : QueueCounts
  emailQueue : QueueCounts
  schedulerQueue : QueueCounts
  deriving DecidableEq, Repr

/-- The fields of an enqueued EmailJob the claims observe (subjects carry
only their fixed text; dates and interpolated numbers are elided). -/
structure EmailPayload where
  type : String
  -- source field name: `to` (a reserved keyword in Lean)
  toAddrs : List String
  subject : String
  deriving DecidableEq, Repr

/-- The health report processHealthCheck builds. -/
structure HealthReport where
  database : String
  alerts : List String
  deriving DecidableEq, Repr

/-- SchedulerProcessor.processHealthCheck: threshold alerts in push order,
then exactly one alert email iff any alert fired. `dbConnected` is the
outcome of the connectDB probe, `adminEmail` the ADMIN_EMAIL list. -/
def processHealthCheck (stats : QueueStats) (dbConnected : Bool)
    (adminEmail : List String) : HealthReport × List EmailPayload :=
  let dbStatus := if dbConnected then "connected" else "disconnected"
  let stuckJobs := stats.callQueue.active > 10
  let alerts :=
    (if stuckJobs then ["High number of active jobs detected"] else [])
    ++ (if stats.callQueue.failed > 50 then ["High number of failed call jobs"] else [])
    ++ (if dbStatus = "disconnected" then ["Database connectivity issues"] else [])
  let report : HealthReport := { database := dbStatus, alerts := alerts }
  (report,
    if alerts.length > 0 then
      [{ type := "alert", toAddrs := adminEmail, subject := "System Health Alert" }]
    else [])

/-- The observable result of one report-family scheduler run. -/
structure ReportRunResult where
  status : String
  message : Option String
  files : List String
  emails : List EmailPayload
  deriving DecidableEq, Repr

/-- SchedulerProcessor.processDailyReport, as a function of the store query
result `data` and the EMAIL_TO list: on an empty result it returns completed
with "No calls to report" and sends nothing; otherwise it writes one or two
spreadsheets and enqueues one daily_report email. -/
def processDailyReport (data : List CallReportData) (emailTo : List String) :
    ReportRunResult :=
  if data.length = 0 then
    { status := "completed", message := some "No calls to report"
      files := [], emails := [] }
  else
    let successfulCalls := data.filter isSuccessfulCall
    { status := "completed", message := none
      files := ["DailyReport_AllCalls"]
        ++ (if successfulCalls.length ≠ 0 then ["DailyReport_SuccessfulCalls"] else [])
      emails := [{ type := "daily_report", toAddrs := emailTo, subject := "Daily Call Report" }] }

/-- SchedulerProcessor.processWeeklyReport in the processors file is a stub:
it always returns completed with no store write, artifact or email. -/
def processWeeklyReport : ReportRunResult :=
  { status := "completed", message := some "Weekly report processed"
    files := [], emails := [] }

/-- SchedulerProcessor.processMonthlyReport is likewise a stub. -/
def processMonthlyReport : ReportRunResult :=
  { status := "completed", message := some "Monthly report processed"
    files := [], emails := [] }

/-- The standalone daily-report script (its `main`), as a function of the
store query result: on an empty result it still enqueues one daily_report
"No Calls" notification email and generates no artifact. -/
def dailyReportScriptMain (data : List CallReportData) (emailTo : List String) :
    ReportRunResult :=
  if data.length = 0 then
    { status := "completed", message := some "No calls found for the date range."
      files := []
      emails := [{ type := "daily_report", toAddrs := emailTo
                   subject := "Daily Call Report - No Calls" }] }
  else
    let successfulCalls := data.filter isSuccessfulCall
    { status := "completed", message := none
      files := ["DailyReport_Comprehensive"]
        ++ (if successfulCalls.length ≠ 0 then ["DailyReport_SuccessfulCalls"] else [])
      emails := [{ type := "daily_report", toAddrs := emailTo, subject := "Daily Call Report" }] }

/-! ## Cleanup (SchedulerProcessor.processCleanup, QueueManager.cleanupQueues) -/

/-- One terminal queue entry as seen by the broker's clean primitive. -/
structure QJob where
  finishedOn : ℤ
  state : String
  deriving DecidableEq, Repr

/-- Modelled from the spec: the broker's `clean(grace, limit, type)`
primitive (bullmq, an external collaborator, spec section 6) removes up to
`limit` entries in the given terminal state older than `grace`
milliseconds, returning the removed entries. bullmq's documented default
for an omitted `type` argument is "completed" — the repository's own
dashboard passes "failed" explicitly when it wants failed entries cleared. -/
def cleanQueue (grace : ℤ) (limit : ℕ) (jtype : String) (now : ℤ)
    (jobs : List QJob) : List QJob :=
  (jobs.filter fun j => j.state == jtype && j.finishedOn < now - grace).take limit

/-- QueueManager.cleanupQueues: `queue.clean(24 * 60 * 60 * 1000, 100)` on
each of the three queues — the two-argument call, so the broker's default
type "completed" applies. Returns the entries removed from each queue. -/
def cleanupQueues (now : ℤ) (callJobs emailJobs schedulerJobs : List QJob) :
    List QJob × List QJob × List QJob :=
  (cleanQueue (24 * 60 * 60 * 1000) 100 "completed" now callJobs,
   cleanQueue (24 * 60 * 60 * 1000) 100 "completed" now emailJobs,
   cleanQueue (24 * 60 * 60 * 1000) 100 "completed" now schedulerJobs)

/-- SchedulerProcessor.processCleanup: run cleanupQueues and delete the
call-history records with `startedAt < now - 30 days` (ISO-string `$lt`
comparison agrees with timestamp order; the calendar-day subtraction is
carried as 30 × 24h in milliseconds). Returns (queue sweep results,
deleted call-history timestamps). -/
def processCleanup (now : ℤ) (callJobs emailJobs schedulerJobs : List QJob)
    (callHistory : List ℤ) :
    (List QJob × List QJob × List QJob) × List ℤ :=
  (cleanupQueues now callJobs emailJobs schedulerJobs,
   callHistory.filter fun t => t < now - 30 * 24 * 60 * 60 * 1000)

/-! ## Shared example inputs for concrete instantiations -/

/-- Example weekly schedule: one slot for assistant "A" on Monday,
09:00 - 17:00 (540 - 1020 minutes). -/
def exUser : UserDoc :=
  { weeklySchedule :=
    { monday := some [("morning", ⟨"A", 540, 1020⟩)]
      tuesday := none, wednesday := none, thursday := none
      friday := none, saturday := none, sunday := none } }

/-- Example job payload for assistant "A". -/
def exJob : JobData :=
  { userId := "u1", assistantId := "A"
    contact := { name := "John", number := "+15550100" }
    priority := none, delay := none }

/-! ## C1 — dispatch-failure classification under the broker's retry loop -/

/-- The result of running one job to completion under the broker:
total attempts made, all CallQueueDone operations across attempts in
order, the backoff delay before each re-attempt, and the error the queue
records if the job ends in the failed set. -/
structure BrokerOutcome where
  attemptsMade : ℕ
  records : List RecordOp
  backoffDelays : List ℕ
  finalFailed : Option JsError
  deriving DecidableEq, Repr

/-- The broker's retry loop, one step per remaining attempt:
`runAttempt n` is the processor run of the (0-based) n-th attempt. -/
def brokerRunAux (runAttempt : ℕ → ProcResult) (baseDelay : ℕ) :
    ℕ → ℕ → List RecordOp → List ℕ → BrokerOutcome
  | 0, n, recs, ds =>
    { attemptsMade := n, records := recs, backoffDelays := ds, finalFailed := none }
  | fuel + 1, n, recs, ds =>
    let r := runAttempt n
    match r.outcome with
    | .ok _ =>
      { attemptsMade := n + 1, records := recs ++ r.records
        backoffDelays := ds, finalFailed := none }
    | .error e =>
      match fuel with
      | 0 =>
        { attemptsMade := n + 1, records := recs ++ r.records
          backoffDelays := ds, finalFailed := some e }
      | fuel' + 1 =>
        brokerRunAux runAttempt baseDelay (fuel' + 1) (n + 1) (recs ++ r.records)
          (ds ++ [baseDelay * 2 ^ n])

/-- Modelled from the spec: the broker's retry policy (bullmq, an external
collaborator, sections 2 and 6) — an attempt whose processor throws is
re-attempted with exponential backoff (base delay × 2^k before the k-th
re-attempt) until the `attempts` ceiling, regardless of the thrown error's
message: only an instance of bullmq's UnrecoverableError class skips the
remaining retries, and CallProcessor throws only plain Errors. A normal
return completes the job; the error of the last failed attempt is what the
queue records when the job lands in the failed set. -/
def brokerRun (runAttempt : ℕ → ProcResult) (opts : JobOptionsCfg) : BrokerOutcome :=
  brokerRunAux runAttempt opts.backoff.delay opts.attempts 0 [] []

/-- A dispatch job each of whose attempts finds the user, is inside the
assistant's window, finds the service available, and fails the external
call with the same error `e`, run under the default job options. -/
def dispatchFailureRun (user : UserDoc) (nowDay nowMin : ℕ)
    (optsPriority : Option ℚ) (data : JobData) (e : JsError) : BrokerOutcome :=
  brokerRun
    (fun _ => process (some user) nowDay nowMin false (.error e) optsPriority data)
    DEFAULT_JOB_OPTIONS

/-- C1: evaluating the code at the failing input. The dispatch failure
"invalid phone number" matches no retryable signal and each attempt
rethrows it wrapped as a plain "Permanent failure: ..." error; but under
the same default job options (attempts 3, exponential backoff, base
5000 ms) the broker re-attempts any plain thrown error, so the job is
dialed three times with backoff delays 5000 and 10000 ms, a
CallAttemptRecord is created (and failed) on every attempt — three
creations, not one — and the job surfaces in the failed set only after
the attempt ceiling, not immediately: the claimed
"recorded once, surfaced immediately, no retry" behaviour (also asserted
by the source comment "mark as permanently failed") would require
bullmq's UnrecoverableError, which the processor never throws. -/
theorem C1_permanent_failure_retried :
    isRetryableError ⟨"invalid phone number", none⟩ = false
    ∧ (process (some exUser) 0 600 false
        (.error ⟨"invalid phone number", none⟩) none exJob).outcome
      = .error ⟨"Permanent failure: invalid phone number", none⟩
    ∧ (dispatchFailureRun exUser 0 600 none exJob
        ⟨"invalid phone number", none⟩).attemptsMade = 3
    ∧ ((dispatchFailureRun exUser 0 600 none exJob
        ⟨"invalid phone number", none⟩).records.filter RecordOp.isCreate).length = 3
    ∧ (dispatchFailureRun exUser 0 600 none exJob
        ⟨"invalid phone number", none⟩).backoffDelays = [5000, 10000]
    ∧ (dispatchFailureRun exUser 0 600 none exJob
        ⟨"invalid phone number", none⟩).finalFailed
      = some ⟨"Permanent failure: invalid phone number", none⟩
    ∧ DEFAULT_JOB_OPTIONS.attempts = 3
    ∧ DEFAULT_JOB_OPTIONS.backoff.type = "exponential"
    ∧ DEFAULT_JOB_OPTIONS.backoff.delay = 5000 := by
  refine ⟨by decide, by decide, by decide, by decide, by decide, by decide, rfl, rfl, rfl⟩

/-! ## C2 — one attempt record per dispatch, monotonic status -/

/-- C2: every dispatch attempt (user found, inside the window, service not
busy) creates exactly one CallQueueDone record with status
pending_initiation immediately before the external call and updates it
exactly once afterwards — to initiated with a completion timestamp on
success, or to failed with the captured reason (and a completion
timestamp) on failure — and no operation ever writes pending_initiation
again. The retryable and permanent failure classifications share the same
record trace, so this covers all three terminal paths. -/
theorem C2_attempt_record_monotonic
    (user : UserDoc) (nowDay nowMin : ℕ) (optsPriority : Option ℚ)
    (data : JobData) (sl : Slot) (callResult : Except JsError Unit)
    (hslot : getCurrentSlotForAssistant user data.assistantId nowDay = some sl)
    (hwithin : isWithinCallHours sl.callTimeStart sl.callTimeEnd nowMin = true) :
    (∀ u, callResult = .ok u →
      (process (some user) nowDay nowMin false callResult optsPriority data).records
        = [.create "pending_initiation", .update "initiated" none true])
    ∧ (∀ e, callResult = .error e →
      (process (some user) nowDay nowMin false callResult optsPriority data).records
        = [.create "pending_initiation",
           .update "failed" (some (jsOrStr e.message "Unknown error")) true])
    ∧ ((process (some user) nowDay nowMin false callResult optsPriority data).records.filter
        RecordOp.isCreate).length = 1
    ∧ (∀ st rs c,
        RecordOp.update st rs c
          ∈ (process (some user) nowDay nowMin false callResult optsPriority data).records →
        st ≠ "pending_initiation") := by
  have hred : (process (some user) nowDay nowMin false callResult optsPriority data).records
      = match callResult with
        | .ok _ => [.create "pending_initiation", .update "initiated" none true]
        | .error e => [.create "pending_initiation",
            .update "failed" (some (jsOrStr e.message "Unknown error")) true] := by
    cases callResult with
    | ok u =>
      simp only [process, processInner, hslot, outsideCallWindow, hwithin,
        Bool.not_true, Bool.false_eq_true, if_false]
    | error e =>
      simp only [process, processInner, hslot, outsideCallWindow, hwithin,
        Bool.not_true, Bool.false_eq_true, if_false]
  refine ⟨?_, ?_, ?_, ?_⟩
  · intro u hu; subst hu; simpa using hred
  · intro e he; subst he; simpa using hred
  · rw [hred]; cases callResult <;> simp [RecordOp.isCreate]
  · intro st rs c hmem hst
    subst hst
    rw [hred] at hmem
    cases callResult <;> simp_all

/-- Witness for C2: a concrete successful dispatch creates the record as
pending_initiation and finalizes it as initiated. -/
theorem C2_attempt_record_monotonic_witness :
    (process (some exUser) 0 600 false (.ok ()) none exJob).records
      = [.create "pending_initiation", .update "initiated" none true] := by
  exact (C2_attempt_record_monotonic exUser 0 600 none exJob ⟨"A", 540, 1020⟩
    (.ok ()) (by decide) (by decide)).1 () rfl

/-! ## C3 — busy external service: throttle, not failure -/

/-- C3: when the availability check reports the external voice service
busy (user found, inside the window), the identical job payload is
re-enqueued exactly once with a fixed 15000 ms delay — inside the claimed
10 - 20 second band — the run returns the non-error status delayed (so the
broker counts no failed attempt against the job), and no CallQueueDone
record is created for the contact. -/
theorem C3_vapi_busy_throttle
    (user : UserDoc) (nowDay nowMin : ℕ) (optsPriority : Option ℚ)
    (data : JobData) (sl : Slot) (callResult : Except JsError Unit)
    (hslot : getCurrentSlotForAssistant user data.assistantId nowDay = some sl)
    (hwithin : isWithinCallHours sl.callTimeStart sl.callTimeEnd nowMin = true) :
    (process (some user) nowDay nowMin true callResult optsPriority data).records = []
    ∧ (process (some user) nowDay nowMin true callResult optsPriority data).enqueues
        = [{ data := data, priority := jsOrQ data.priority 1, delay := 15000 }]
    ∧ (process (some user) nowDay nowMin true callResult optsPriority data).outcome
        = .ok .delayed
    ∧ (∀ e ∈ (process (some user) nowDay nowMin true callResult optsPriority data).enqueues,
        10000 ≤ e.delay ∧ e.delay ≤ 20000 ∧ e.data = data) := by
  have hred : process (some user) nowDay nowMin true callResult optsPriority data
      = ⟨[], [{ data := data, priority := jsOrQ data.priority 1, delay := 15000 }],
         .ok .delayed⟩ := by
    simp only [process, processInner, hslot, outsideCallWindow, hwithin,
      Bool.not_true, Bool.false_eq_true, if_false, if_true, addCallJob,
      Option.getD_some, Option.getD_none]
  rw [hred]
  refine ⟨rfl, rfl, rfl, ?_⟩
  intro e he
  simp only [List.mem_singleton] at he
  subst he
  exact ⟨by norm_num, by norm_num, rfl⟩

/-- Witness for C3: a concrete busy-service run re-enqueues the same job
with a 15 s delay and writes no attempt record. -/
theorem C3_vapi_busy_throttle_witness :
    (process (some exUser) 0 600 true (.ok ()) none exJob).records = []
    ∧ (process (some exUser) 0 600 true (.ok ()) none exJob).enqueues
        = [{ data := exJob, priority := 1, delay := 15000 }] := by
  have h := C3_vapi_busy_throttle exUser 0 600 none exJob ⟨"A", 540, 1020⟩
    (.ok ()) (by decide) (by decide)
  exact ⟨h.1, by rw [h.2.1]; decide⟩

/-! ## Lemmas about the 7-day slot scan -/

/-- The fuel-indexed scan returns none exactly when no day it visits has a
matching slot. -/
theorem findNextAux_eq_none_iff (u : UserDoc) (aid : String) (c : ℕ) :
    ∀ fuel i, findNextAux u aid c fuel i = none ↔
      ∀ k, k < fuel → matchDaySlot u aid ((c + (i + k)) % 7) = none := by
  intro fuel
  induction fuel with
  | zero => intro i; simp [findNextAux]
  | succ n ih =>
    intro i
    rcases hm : matchDaySlot u aid ((c + i) % 7) with _ | ⟨nm, sl⟩
    · rw [findNextAux, hm, ih (i + 1)]
      constructor
      · intro hall k hk
        rcases k with _ | k
        · simpa using hm
        · have hprev := hall k (by omega)
          rw [show c + (i + (k + 1)) = c + (i + 1 + k) from by omega]
          exact hprev
      · intro hall k hk
        have hnext := hall (k + 1) (by omega)
        rw [show c + (i + 1 + k) = c + (i + (k + 1)) from by omega]
        exact hnext
    · rw [findNextAux, hm]
      simp only [reduceCtorEq, false_iff, not_forall]
      refine ⟨0, by omega, ?_⟩
      intro h0
      rw [show c + (i + 0) = c + i from by omega, hm] at h0
      exact Option.noConfusion h0

/-- When the fuel-indexed scan finds a slot, it is the first match in scan
order: nothing matched on any earlier visited day, and the returned entry
is the first matching entry of its day. -/
theorem findNextAux_eq_some (u : UserDoc) (aid : String) (c : ℕ) :
    ∀ fuel i ns, findNextAux u aid c fuel i = some ns →
      i ≤ ns.dayOffset ∧ ns.dayOffset < i + fuel
      ∧ matchDaySlot u aid ((c + ns.dayOffset) % 7) = some (ns.slotName, ns.slotData)
      ∧ ∀ j, i ≤ j → j < ns.dayOffset → matchDaySlot u aid ((c + j) % 7) = none := by
  intro fuel
  induction fuel with
  | zero => intro i ns h; simp [findNextAux] at h
  | succ n ih =>
    intro i ns h
    rcases hm : matchDaySlot u aid ((c + i) % 7) with _ | ⟨nm, sl⟩
    · rw [findNextAux, hm] at h
      obtain ⟨h1, h2, h3, h4⟩ := ih (i + 1) ns h
      refine ⟨by omega, by omega, h3, ?_⟩
      intro j hj1 hj2
      rcases Nat.eq_or_lt_of_le hj1 with rfl | hlt
      · exact hm
      · exact h4 j (by omega) hj2
    · rw [findNextAux, hm] at h
      obtain rfl := Option.some.inj h
      refine ⟨le_refl _, by show i < i + (n + 1); omega, hm, ?_⟩
      intro j hj1 hj2
      have hj2' : j < i := hj2
      omega

/-- A day has no matching entry exactly when no slot listed for that day
carries the assistant id. -/
theorem matchDaySlot_eq_none_iff (u : UserDoc) (aid : String) (d : ℕ) :
    matchDaySlot u aid d = none ↔
      ∀ p ∈ (u.weeklySchedule.day d).getD [], p.2.assistantId ≠ aid := by
  rcases hd : u.weeklySchedule.day d with _ | ds
  · simp [matchDaySlot, hd]
  · simp [matchDaySlot, hd, List.find?_eq_none]

/-- With a valid current-day index, the 7-day scan fails exactly when the
assistant has no matching slot on any of the seven weekdays. -/
theorem findNextAvailableSlot_eq_none_iff (u : UserDoc) (aid : String) (c : ℕ)
    (hc : c < 7) :
    findNextAvailableSlot u aid c = none ↔
      ∀ d, d < 7 → matchDaySlot u aid d = none := by
  unfold findNextAvailableSlot
  rw [findNextAux_eq_none_iff]
  constructor
  · intro hall d hd
    have hk : (d + 6 - c) % 7 < 7 := Nat.mod_lt _ (by norm_num)
    have hval := hall ((d + 6 - c) % 7) hk
    have harg : (c + (1 + (d + 6 - c) % 7)) % 7 = d := by omega
    rwa [harg] at hval
  · intro hall k hk
    exact hall ((c + (1 + k)) % 7) (Nat.mod_lt _ (by norm_num))

/-- A returned match's slot really carries the requested assistant id. -/
theorem matchDaySlot_assistantId (u : UserDoc) (aid : String) (d : ℕ)
    (nm : String) (sl : Slot) (h : matchDaySlot u aid d = some (nm, sl)) :
    sl.assistantId = aid := by
  unfold matchDaySlot at h
  rcases hd : u.weeklySchedule.day d with _ | ds
  · rw [hd] at h; exact Option.noConfusion h
  · rw [hd] at h
    have := List.find?_some h
    simpa [beq_iff_eq] using this

/-! ## C10 — no slot anywhere: the job is silently dropped -/

/-- C10: when the window check fails (no current slot, or the current time
outside it) and the assistant has no matching slot on any day of the week,
rescheduleForNextSlot finds nothing and only logs a warning, so the run
ends with status rescheduled, zero re-enqueues and zero attempt records:
the contact is dropped without failure or further scheduling. -/
theorem C10_no_slot_job_dropped
    (user : UserDoc) (nowDay nowMin : ℕ) (vapiBusy : Bool)
    (callResult : Except JsError Unit) (optsPriority : Option ℚ) (data : JobData)
    (hday : nowDay < 7)
    (hout : outsideCallWindow
      (getCurrentSlotForAssistant user data.assistantId nowDay) nowMin = true)
    (hnoslot : ∀ d, d < 7 →
      ∀ p ∈ (user.weeklySchedule.day d).getD [], p.2.assistantId ≠ data.assistantId) :
    process (some user) nowDay nowMin vapiBusy callResult optsPriority data
      = ⟨[], [], .ok .rescheduled⟩ := by
  have hnone : findNextAvailableSlot user data.assistantId nowDay = none :=
    (findNextAvailableSlot_eq_none_iff user data.assistantId nowDay hday).2
      (fun d hd => (matchDaySlot_eq_none_iff user data.assistantId d).2 (hnoslot d hd))
  simp only [process, processInner, hout, if_true, rescheduleForNextSlot, hnone]

/-- Example schedule whose only slot belongs to a different assistant. -/
def exUserB : UserDoc :=
  { weeklySchedule :=
    { monday := some [("morning", ⟨"B", 540, 1020⟩)]
      tuesday := none, wednesday := none, thursday := none
      friday := none, saturday := none, sunday := none } }

/-- Witness for C10: assistant "A" is scheduled nowhere, so the job for it
is dropped with status rescheduled and no enqueue or record. -/
theorem C10_no_slot_job_dropped_witness :
    process (some exUserB) 0 600 false (.ok ()) none exJob
      = ⟨[], [], .ok .rescheduled⟩ :=
  C10_no_slot_job_dropped exUserB 0 600 false (.ok ()) none exJob
    (by decide) (by decide) (by decide)

/-! ## C5 — next-slot lookup -/

/-- Schedule refuting the earliest-slot reading of C5: tomorrow lists, for
assistant "A", a 15:00 slot before a 09:00 slot. -/
def exC5User : UserDoc :=
  { weeklySchedule :=
    { monday := none
      tuesday := some [("slot1", ⟨"A", 900, 960⟩), ("slot2", ⟨"A", 540, 600⟩)]
      wednesday := none, thursday := none
      friday := none, saturday := none, sunday := none } }

/-- Counterexample to C5: with today = monday (index 0) and now = 10:00
(600 minutes), the lookup returns tuesday's first-listed slot starting at
15:00 (absolute minute 1440 + 900 = 2340), even though tuesday also lists
a matching slot starting at 09:00 (absolute minute 1440 + 540 = 1980),
which lies strictly between now and the returned slot — so the returned
slot is not the earliest matching slot of the 7-day lookahead. -/
theorem C5_counterexample :
    findNextAvailableSlot exC5User "A" 0
      = some ⟨1, "tuesday", "slot1", ⟨"A", 900, 960⟩⟩
    ∧ ("slot2", (⟨"A", 540, 600⟩ : Slot)) ∈ (exC5User.weeklySchedule.day 1).getD []
    ∧ (⟨"A", 540, 600⟩ : Slot).assistantId = "A"
    ∧ 600 < 1 * 1440 + 540
    ∧ 1 * 1440 + 540 < 1 * 1440 + 900 := by
  refine ⟨by decide, by decide, rfl, by norm_num, by norm_num⟩

/-- C5 as amended: the lookup returns none exactly when the assistant has
no slot anywhere in the week; when it returns a slot, that slot lies on
the earliest day (scanning tomorrow first, wrapping, up to 7 days) that
has any matching slot, it is the first-listed matching slot of that day
(not necessarily the earliest-starting one), it belongs to the assistant,
and its start instant is strictly after now. -/
theorem C5_next_slot_lookup_amended
    (u : UserDoc) (aid : String) (c nowMin : ℕ)
    (hc : c < 7) (hnow : nowMin < 1440) :
    (findNextAvailableSlot u aid c = none ↔
      ∀ d, d < 7 → ∀ p ∈ (u.weeklySchedule.day d).getD [], p.2.assistantId ≠ aid)
    ∧ (∀ ns, findNextAvailableSlot u aid c = some ns →
        1 ≤ ns.dayOffset ∧ ns.dayOffset ≤ 7
        ∧ matchDaySlot u aid ((c + ns.dayOffset) % 7) = some (ns.slotName, ns.slotData)
        ∧ ns.slotData.assistantId = aid
        ∧ (∀ j, 1 ≤ j → j < ns.dayOffset → matchDaySlot u aid ((c + j) % 7) = none)
        ∧ nowMin < ns.dayOffset * 1440 + ns.slotData.callTimeStart) := by
  constructor
  · rw [findNextAvailableSlot_eq_none_iff u aid c hc]
    constructor
    · intro hall d hd
      exact (matchDaySlot_eq_none_iff u aid d).1 (hall d hd)
    · intro hall d hd
      exact (matchDaySlot_eq_none_iff u aid d).2 (hall d hd)
  · intro ns hns
    obtain ⟨h1, h2, h3, h4⟩ := findNextAux_eq_some u aid c 7 1 ns hns
    refine ⟨h1, by omega, h3, matchDaySlot_assistantId u aid _ _ _ h3, h4, by omega⟩

/-- Witness for C5 (amended): with today = tuesday (index 1), assistant
"A"'s only slot (monday morning) is found at day offset 6, and its start
lies strictly after now. -/
theorem C5_next_slot_lookup_amended_witness :
    findNextAvailableSlot exUser "A" 1
      = some ⟨6, "monday", "morning", ⟨"A", 540, 1020⟩⟩
    ∧ (600 : ℕ) < 6 * 1440 + 540 := by
  have h := (C5_next_slot_lookup_amended exUser "A" 1 600 (by decide) (by decide)).2
    ⟨6, "monday", "morning", ⟨"A", 540, 1020⟩⟩ (by decide)
  exact ⟨by decide, h.2.2.2.2.2⟩

/-! ## C4 — bulk-enqueue staggering -/

/-- Index computation for the indexed map. -/
theorem getElem?_mapWithIndex (f : ℕ → α → β) :
    ∀ (s : ℕ) (l : List α) (i : ℕ),
      (mapWithIndex f s l)[i]? = (l[i]?).map (f (s + i)) := by
  intro s l
  induction l generalizing s with
  | nil => intro i; simp [mapWithIndex]
  | cons a as ih =>
    intro i
    cases i with
    | zero => simp [mapWithIndex]
    | succ n =>
      simp only [mapWithIndex, List.getElem?_cons_succ, ih (s + 1) n]
      rw [show s + (n + 1) = s + 1 + n from by omega]

/-- Counterexample to C4: a bulk enqueue with base priority p = 0 gives
the 0-th job priority 1 (the `|| 1` falsy default in addBulkCallJobs),
not p + 0.01 * 0 = 0 as the claim requires. -/
theorem C4_counterexample :
    (queueCallsEnqueues "u" "a" [{ name := "n", number := "1" }] 0 0).map Enqueue.priority
      = [1]
    ∧ (1 : ℚ) ≠ 0 + (0 : ℚ) * (1 / 100) := by
  constructor
  · simp [queueCallsEnqueues, addBulkCallJobs, queueCallsJobs, mapWithIndex,
      validContacts, jsTrim, addCallJob, jsOrQ, jsOrZ]
  · norm_num

/-- The five example contacts of the N = 5 scenario. -/
def exContacts5 : List Contact :=
  [⟨"c1", "1"⟩, ⟨"c2", "2"⟩, ⟨"c3", "3"⟩, ⟨"c4", "4"⟩, ⟨"c5", "5"⟩]

/-- C4 as amended: the i-th enqueued job of a bulk enqueue with base
priority p and base delay d has delay d + 1000 * i, and priority
p + 0.01 * i unless that value is 0, in which case the falsy-default
`|| 1` in addBulkCallJobs substitutes 1. In particular, for N = 5, p = 1,
d = 0 the delays are 0,1000,2000,3000,4000 ms and the priorities
1.00,1.01,1.02,1.03,1.04, both strictly increasing. -/
theorem C4_bulk_stagger_amended
    (userId assistantId : String) (contacts : List Contact)
    (p : ℚ) (d : ℤ) (i : ℕ) :
    (∀ e, (queueCallsEnqueues userId assistantId contacts p d)[i]? = some e →
      e.delay = d + (i : ℤ) * 1000
      ∧ e.priority = (if p + (i : ℚ) * (1 / 100) = 0 then 1
          else p + (i : ℚ) * (1 / 100)))
    ∧ (queueCallsEnqueues "u" "a" exContacts5 1 0).map Enqueue.delay
        = [0, 1000, 2000, 3000, 4000]
    ∧ (queueCallsEnqueues "u" "a" exContacts5 1 0).map Enqueue.priority
        = [1, 101 / 100, 51 / 50, 103 / 100, 26 / 25]
    ∧ List.Chain' (· < ·)
        ((queueCallsEnqueues "u" "a" exContacts5 1 0).map Enqueue.delay)
    ∧ List.Chain' (· < ·)
        ((queueCallsEnqueues "u" "a" exContacts5 1 0).map Enqueue.priority) := by
  have hdelays : (queueCallsEnqueues "u" "a" exContacts5 1 0).map Enqueue.delay
      = [0, 1000, 2000, 3000, 4000] := by
    simp [queueCallsEnqueues, addBulkCallJobs, queueCallsJobs, mapWithIndex,
      validContacts, jsTrim, addCallJob, jsOrQ, jsOrZ, exContacts5]
  have hprios : (queueCallsEnqueues "u" "a" exContacts5 1 0).map Enqueue.priority
      = [1, 101 / 100, 51 / 50, 103 / 100, 26 / 25] := by
    simp [queueCallsEnqueues, addBulkCallJobs, queueCallsJobs, mapWithIndex,
      validContacts, jsTrim, addCallJob, jsOrQ, jsOrZ, exContacts5]
    norm_num
  refine ⟨?_, hdelays, hprios,
    by rw [hdelays]; simp [List.chain'_cons],
    by rw [hprios]; norm_num [List.chain'_cons]⟩
  intro e he
  rw [queueCallsEnqueues, addBulkCallJobs, queueCallsJobs] at he
  rw [List.getElem?_map, getElem?_mapWithIndex] at he
  rcases hv : (validContacts contacts)[i]? with _ | c
  · rw [hv] at he; exact Option.noConfusion he
  · rw [hv] at he
    simp only [Option.map_some, Option.map_map, Nat.zero_add] at he
    obtain rfl := Option.some.inj he
    constructor
    · simp [addCallJob]
    · simp only [Function.comp, addCallJob, Option.getD_none, Option.getD_some, jsOrQ]

/-- Witness for C4 (amended): the job at index 3 of the N = 5, p = 1,
d = 0 bulk enqueue has delay 3000 ms and priority 1.03. -/
theorem C4_bulk_stagger_amended_witness :
    ((queueCallsEnqueues "u" "a" exContacts5 1 0)[3]?).map Enqueue.delay = some 3000
    ∧ ((queueCallsEnqueues "u" "a" exContacts5 1 0)[3]?).map Enqueue.priority
        = some (103 / 100) := by
  rcases hsome : (queueCallsEnqueues "u" "a" exContacts5 1 0)[3]? with _ | e
  · exfalso
    have hlen : (queueCallsEnqueues "u" "a" exContacts5 1 0).length = 5 := by
      simp [queueCallsEnqueues, addBulkCallJobs, queueCallsJobs, mapWithIndex,
        validContacts, jsTrim, exContacts5]
    rw [List.getElem?_eq_none_iff] at hsome
    omega
  · obtain ⟨hd, hp⟩ := (C4_bulk_stagger_amended "u" "a" exContacts5 1 0 3).1 e hsome
    refine ⟨?_, ?_⟩
    · simp only [Option.map_some']
      rw [hd]; norm_num
    · simp only [Option.map_some']
      rw [hp]; norm_num

/-! ## C6 — health-check alerts and the alert email -/

/-- Example queue statistics for the C6 scenario: 15 active and 60 failed
call jobs. -/
def exStats : QueueStats :=
  { callQueue := { waiting := 0, active := 15, completed := 0, failed := 60, delayed := 0 }
    emailQueue := { waiting := 0, active := 0, completed := 0, failed := 0, delayed := 0 }
    schedulerQueue := { waiting := 0, active := 0, completed := 0, failed := 0, delayed := 0 } }

/-- C6: the stuck-jobs alert fires iff the active call-queue depth exceeds
10, the high-failure alert fires iff the failed call count exceeds 50, and
the database alert fires iff the connectivity probe fails; exactly one
alert email goes to the admin list when any alert fires and none
otherwise. In particular, active = 15 and failed = 60 with a healthy
database raises exactly the two threshold alerts and one email. -/
theorem C6_health_check_alerts (stats : QueueStats) (dbConnected : Bool)
    (adminEmail : List String) :
    ("High number of active jobs detected"
        ∈ (processHealthCheck stats dbConnected adminEmail).1.alerts
      ↔ stats.callQueue.active > 10)
    ∧ ("High number of failed call jobs"
        ∈ (processHealthCheck stats dbConnected adminEmail).1.alerts
      ↔ stats.callQueue.failed > 50)
    ∧ ("Database connectivity issues"
        ∈ (processHealthCheck stats dbConnected adminEmail).1.alerts
      ↔ dbConnected = false)
    ∧ (processHealthCheck stats dbConnected adminEmail).2.length
        = (if (processHealthCheck stats dbConnected adminEmail).1.alerts.isEmpty
           then 0 else 1)
    ∧ (∀ e ∈ (processHealthCheck stats dbConnected adminEmail).2,
        e.toAddrs = adminEmail ∧ e.type = "alert")
    ∧ (processHealthCheck exStats true adminEmail).1.alerts
        = ["High number of active jobs detected", "High number of failed call jobs"]
    ∧ (processHealthCheck exStats true adminEmail).2.length = 1 := by
  have hscen : processHealthCheck exStats true adminEmail
      = ({ database := "connected"
           alerts := ["High number of active jobs detected",
                      "High number of failed call jobs"] },
         [{ type := "alert", toAddrs := adminEmail, subject := "System Health Alert" }]) := by
    simp [processHealthCheck, exStats]
  refine ⟨?_, ?_, ?_, ?_, ?_, by rw [hscen], by rw [hscen]; rfl⟩
  · by_cases h1 : stats.callQueue.active > 10 <;>
      by_cases h2 : stats.callQueue.failed > 50 <;>
      cases dbConnected <;>
      simp_all [processHealthCheck]
  · by_cases h1 : stats.callQueue.active > 10 <;>
      by_cases h2 : stats.callQueue.failed > 50 <;>
      cases dbConnected <;>
      simp_all [processHealthCheck]
  · by_cases h1 : stats.callQueue.active > 10 <;>
      by_cases h2 : stats.callQueue.failed > 50 <;>
      cases dbConnected <;>
      simp_all [processHealthCheck]
  · by_cases h1 : stats.callQueue.active > 10 <;>
      by_cases h2 : stats.callQueue.failed > 50 <;>
      cases dbConnected <;>
      simp_all [processHealthCheck]
  · intro e he
    by_cases h1 : stats.callQueue.active > 10 <;>
      by_cases h2 : stats.callQueue.failed > 50 <;>
      cases dbConnected <;>
      simp_all [processHealthCheck]

/-- Witness for C6: the scenario run (active = 15, failed = 60, database
healthy) raises exactly the two threshold alerts and one alert email to
the operator list. -/
theorem C6_health_check_alerts_witness :
    (processHealthCheck exStats true ["ops@example.com"]).1.alerts
      = ["High number of active jobs detected", "High number of failed call jobs"]
    ∧ (processHealthCheck exStats true ["ops@example.com"]).2.length = 1 := by
  have h := C6_health_check_alerts exStats true ["ops@example.com"]
  exact ⟨h.2.2.2.2.2.1, h.2.2.2.2.2.2⟩

/-! ## C7 — successful-call definition and success rate -/

/-- Scenario call 1: success flag true, 30 s, ended "completed". -/
def c71 : CallReportData :=
  { analysis := some { successEvaluation := some true }
    durationSeconds := some 30, endedReason := some "completed", cost := some 1 }

/-- Scenario call 2: success flag true but only 5 s. -/
def c72 : CallReportData :=
  { analysis := some { successEvaluation := some true }
    durationSeconds := some 5, endedReason := some "completed", cost := some 1 }

/-- Scenario call 3: success flag false, 30 s. -/
def c73 : CallReportData :=
  { analysis := some { successEvaluation := some false }
    durationSeconds := some 30, endedReason := some "completed", cost := some 1 }

/-- The three-call list of the daily-report scenario. -/
def exC7Calls : List CallReportData := [c71, c72, c73]

/-- Counterexample to C7: on the scenario list the code computes
successfulCalls = 1 but successRate = 33.33 (the source applies
`.toFixed(2)`), which differs both from the exact value
successfulCalls/totalCalls × 100 = 100/3 and from the claimed 33.3%. -/
theorem C7_counterexample :
    (generateSummaryStats exC7Calls).totalCalls = 3
    ∧ (generateSummaryStats exC7Calls).successfulCalls = 1
    ∧ (generateSummaryStats exC7Calls).successRate = 3333 / 100
    ∧ (3333 : ℚ) / 100 ≠ ((1 : ℚ) / 3) * 100
    ∧ (3333 : ℚ) / 100 ≠ 333 / 10 := by
  have h1 : isSuccessfulCall c71 = true := by decide
  have h2 : isSuccessfulCall c72 = false := by decide
  have h3 : isSuccessfulCall c73 = false := by decide
  refine ⟨rfl, ?_, ?_, by norm_num, by norm_num⟩
  · simp [generateSummaryStats, exC7Calls, h1, h2, h3]
  · simp [generateSummaryStats, exC7Calls, h1, h2, h3]
    norm_num [toFixed2]

/-- The claim's successful-call predicate, written from the spec's words:
success flag true, duration (0 when absent) exceeding 10 seconds, and
terminal reason not "voicemail" case-insensitively. -/
def specSuccessfulCall (c : CallReportData) : Bool :=
  (match c.analysis with
   | none => false
   | some a => a.successEvaluation == some true)
  && jsOrQ c.durationSeconds 0 > 10
  && jsToLower (c.endedReason.getD "") != "voicemail"

/-- C7 as amended: a call is counted successful exactly per the claimed
predicate, and the success rate is successfulCalls/totalCalls × 100
rounded to two decimal places (the source's `.toFixed(2)`); on the
three-call scenario this yields successfulCalls = 1 and
successRate = 33.33. -/
theorem C7_success_stats_amended (calls : List CallReportData)
    (hne : calls ≠ []) :
    (generateSummaryStats calls).successfulCalls
      = (calls.filter specSuccessfulCall).length
    ∧ (generateSummaryStats calls).successRate
      = toFixed2 ((((calls.filter specSuccessfulCall).length : ℚ)
          / (calls.length : ℚ)) * 100)
    ∧ (generateSummaryStats exC7Calls).successfulCalls = 1
    ∧ (generateSummaryStats exC7Calls).successRate = 3333 / 100 := by
  have hpred : ∀ c ∈ calls, isSuccessfulCall c = specSuccessfulCall c := by
    intro c _
    rcases c with ⟨a, dur, r, co⟩
    rcases r with _ | r
    · simp only [isSuccessfulCall, specSuccessfulCall]
      have hvm : (jsToLower ((none : Option String).getD "") != "voicemail") = true := by
        decide
      rw [hvm, Bool.and_true]
    · simp [isSuccessfulCall, specSuccessfulCall]
  have hfilter : calls.filter isSuccessfulCall = calls.filter specSuccessfulCall :=
    List.filter_congr hpred
  have hpos : 0 < calls.length := List.length_pos.2 hne
  refine ⟨?_, ?_, ?_, ?_⟩
  · simp [generateSummaryStats, hfilter]
  · simp [generateSummaryStats, hfilter, hpos]
  · have h1 : isSuccessfulCall c71 = true := by decide
    have h2 : isSuccessfulCall c72 = false := by decide
    have h3 : isSuccessfulCall c73 = false := by decide
    simp [generateSummaryStats, exC7Calls, h1, h2, h3]
  · have h1 : isSuccessfulCall c71 = true := by decide
    have h2 : isSuccessfulCall c72 = false := by decide
    have h3 : isSuccessfulCall c73 = false := by decide
    simp [generateSummaryStats, exC7Calls, h1, h2, h3]
    norm_num [toFixed2]

/-- Witness for C7 (amended): the scenario numbers. -/
theorem C7_success_stats_amended_witness :
    (generateSummaryStats exC7Calls).successfulCalls = 1
    ∧ (generateSummaryStats exC7Calls).successRate = 3333 / 100 := by
  have h := C7_success_stats_amended exC7Calls (by simp [exC7Calls])
  exact ⟨h.2.2.1, h.2.2.2⟩

/-! ## C8 — zero-record daily report -/

/-- Counterexample to C8: a scheduled daily-report run over zero records
enqueues no email at all — in particular no "no activity" notification —
contradicting the claim that every zero-record daily-report run sends one.
(Only the standalone daily-report script sends it.) -/
theorem C8_counterexample :
    (processDailyReport [] ["ops@example.com"]).emails = []
    ∧ (processDailyReport [] ["ops@example.com"]).status = "completed" := by
  constructor <;> rfl

/-- C8 as amended: a daily-report run over zero records skips artifact
generation and completes without failing; the scheduled job sends no
email and just returns "No calls to report", while the standalone
daily-report script sends exactly one daily_report "No Calls" notification
email; the weekly and monthly scheduler runs likewise complete without
failing, emails or artifacts (in the processors file they are stubs). -/
theorem C8_zero_record_daily_report_amended (emailTo : List String) :
    (processDailyReport [] emailTo).status = "completed"
    ∧ (processDailyReport [] emailTo).files = []
    ∧ (processDailyReport [] emailTo).emails = []
    ∧ (processDailyReport [] emailTo).message = some "No calls to report"
    ∧ (dailyReportScriptMain [] emailTo).status = "completed"
    ∧ (dailyReportScriptMain [] emailTo).files = []
    ∧ (dailyReportScriptMain [] emailTo).emails
        = [{ type := "daily_report", toAddrs := emailTo
             subject := "Daily Call Report - No Calls" }]
    ∧ processWeeklyReport.status = "completed"
    ∧ processWeeklyReport.files = []
    ∧ processWeeklyReport.emails = []
    ∧ processMonthlyReport.status = "completed"
    ∧ processMonthlyReport.files = []
    ∧ processMonthlyReport.emails = [] := by
  refine ⟨rfl, rfl, rfl, rfl, rfl, rfl, rfl, rfl, rfl, rfl, rfl, rfl, rfl⟩

/-! ## C9 — cleanup retention and queue sweep -/

/-- Counterexample to C9: a failed call-queue entry 25 hours old survives
the cleanup sweep — the two-argument `clean(24h, 100)` call only removes
completed entries — contradicting the claim that both completed and failed
entries older than 24 hours are removed. -/
theorem C9_counterexample :
    (cleanupQueues 0 [{ finishedOn := -90000000, state := "failed" }] [] []).1 = []
    ∧ ((-90000000 : ℤ) < 0 - 24 * 60 * 60 * 1000) := by
  constructor
  · rfl
  · norm_num

/-- C9 as amended: every cleanup run deletes exactly the call-history
records strictly older than 30 days, and sweeps each of the three queues
with grace 24 h, cap 100, and job state "completed": every removed entry
is a completed entry older than 24 h, at most 100 are removed per queue
per sweep, failed entries are never removed by it, and when at most 100
completed entries are eligible all of them are removed. -/
theorem C9_cleanup_amended (now : ℤ) (callJobs emailJobs schedulerJobs : List QJob)
    (callHistory : List ℤ) :
    (∀ t, t ∈ (processCleanup now callJobs emailJobs schedulerJobs callHistory).2
      ↔ t ∈ callHistory ∧ t < now - 30 * 24 * 60 * 60 * 1000)
    ∧ (processCleanup now callJobs emailJobs schedulerJobs callHistory).1
        = (cleanQueue (24 * 60 * 60 * 1000) 100 "completed" now callJobs,
           cleanQueue (24 * 60 * 60 * 1000) 100 "completed" now emailJobs,
           cleanQueue (24 * 60 * 60 * 1000) 100 "completed" now schedulerJobs)
    ∧ (∀ j ∈ cleanQueue (24 * 60 * 60 * 1000) 100 "completed" now callJobs,
        j ∈ callJobs ∧ j.state = "completed" ∧ j.finishedOn < now - 24 * 60 * 60 * 1000)
    ∧ (cleanQueue (24 * 60 * 60 * 1000) 100 "completed" now callJobs).length ≤ 100
    ∧ (∀ j ∈ callJobs, j.state = "failed" →
        j ∉ cleanQueue (24 * 60 * 60 * 1000) 100 "completed" now callJobs)
    ∧ ((callJobs.filter fun j =>
          j.state == "completed" && j.finishedOn < now - 24 * 60 * 60 * 1000).length ≤ 100 →
        cleanQueue (24 * 60 * 60 * 1000) 100 "completed" now callJobs
          = callJobs.filter fun j =>
              j.state == "completed" && j.finishedOn < now - 24 * 60 * 60 * 1000) := by
  refine ⟨?_, rfl, ?_, ?_, ?_, ?_⟩
  · intro t
    simp [processCleanup, cleanupQueues, List.mem_filter]
  · intro j hj
    rw [cleanQueue] at hj
    have hj' := List.mem_filter.1 (List.mem_of_mem_take hj)
    have hparts := hj'.2
    simp only [Bool.and_eq_true, beq_iff_eq, decide_eq_true_eq] at hparts
    exact ⟨hj'.1, hparts.1, hparts.2⟩
  · rw [cleanQueue]
    exact List.length_take_le 100 _
  · intro j _ hfail hj
    rw [cleanQueue] at hj
    have hj' := List.mem_filter.1 (List.mem_of_mem_take hj)
    have hparts := hj'.2
    simp only [Bool.and_eq_true, beq_iff_eq, decide_eq_true_eq] at hparts
    have hcontra : j.state = "completed" := hparts.1
    rw [hfail] at hcontra
    exact absurd hcontra (by decide)
  · intro hle
    rw [cleanQueue]
    exact List.take_of_length_le hle

/-- Witness for C9 (amended): at now = 0, a 25-hour-old completed entry is
removed while the equally old failed entry is kept, and a 1-hour-old
completed entry is kept. -/
theorem C9_cleanup_amended_witness :
    (processCleanup 0
        [{ finishedOn := -90000000, state := "completed" },
         { finishedOn := -90000000, state := "failed" },
         { finishedOn := -3600000, state := "completed" }]
        [] [] [-2592000001, -2592000000]).1.1
      = [{ finishedOn := -90000000, state := "completed" }]
    ∧ (processCleanup 0
        [{ finishedOn := -90000000, state := "completed" },
         { finishedOn := -90000000, state := "failed" },
         { finishedOn := -3600000, state := "completed" }]
        [] [] [-2592000001, -2592000000]).2
      = [-2592000001] := by
  have h := C9_cleanup_amended 0
    [{ finishedOn := -90000000, state := "completed" },
     { finishedOn := -90000000, state := "failed" },
     { finishedOn := -3600000, state := "completed" }]
    [] [] [-2592000001, -2592000000]
  have hsweep := h.2.2.2.2.2 (by decide)
  constructor
  · have : (processCleanup 0
        [{ finishedOn := -90000000, state := "completed" },
         { finishedOn := -90000000, state := "failed" },
         { finishedOn := -3600000, state := "completed" }]
        [] [] [-2592000001, -2592000000]).1.1
        = cleanQueue (24 * 60 * 60 * 1000) 100 "completed" 0
            [{ finishedOn := -90000000, state := "completed" },
             { finishedOn := -90000000, state := "failed" },
             { finishedOn := -3600000, state := "completed" }] := by
      rw [congrArg Prod.fst h.2.1]
    rw [this, hsweep]
    decide
  · have h2 := h.1
    decide

end VapiQueue
